import Mathlib

/-
  Verification development for the CO2 sensor monitor
  (CircuitPython scripts: SCD40 variant and SGP30 variant).

  The source is embedded shallowly: monotonic time instants are rationals,
  Python ints are Lean Ints, the display is an explicit record of label
  objects, and each mutating function is translated to a pure function on
  explicit state, returning the list of writes it performs in order.
-/

namespace CO2Monitor

/- ## Constants (from the source's constant blocks) -/

def CO2_THRESHOLD : Int := 1000

def VOC_THRESHOLD : Int := 250

def UPDATE_INTERVAL : ℚ := 4

def WARMUP_TIME : ℚ := 15

def CALIBRATION_TIME : ℚ := 12 * 3600

def BASELINE_SAVE_INTERVAL : ℚ := 3600

def LOADING_INTERVAL : ℚ := 5 / 100

def LOADING_PHASE_SLEEP : ℚ := 1 / 100

def COLOR_BLACK : Nat := 0x000000

def COLOR_WHITE : Nat := 0xFFFFFF

def COLOR_GREEN : Nat := 0x00FF00

def COLOR_RED : Nat := 0xFF0000

/- ## Warm-up / calibration tracker -/

/-- Result dictionary of `check_warmup_status` in the SGP30 script. -/
structure WarmupStatus where
  warmed_up : Bool
  fully_calibrated : Bool
  elapsed_time : ℚ
deriving DecidableEq

/-- `check_warmup_status()` from the source: `elapsed = time.monotonic() - start_time`,
`warmed_up = elapsed > WARMUP_TIME`, `fully_calibrated = elapsed > CALIBRATION_TIME`. -/
def check_warmup_status (start_time now : ℚ) : WarmupStatus :=
  let elapsed := now - start_time
  { warmed_up := decide (elapsed > WARMUP_TIME)
    fully_calibrated := decide (elapsed > CALIBRATION_TIME)
    elapsed_time := elapsed }

/-- The spec's three-way warm-up classification. -/
inductive WarmupClass
  | NotWarmedUp
  | Warmed
  | FullyCalibrated
deriving DecidableEq

/-- The three-state classification read off the two booleans that
`check_warmup_status` returns (FullyCalibrated dominates Warmed). -/
def classify (start_time now : ℚ) : WarmupClass :=
  let s := check_warmup_status start_time now
  if s.fully_calibrated then .FullyCalibrated
  else if s.warmed_up then .Warmed
  else .NotWarmedUp

/-- Modelled from the spec's words (for comparison with the code's `classify`):
`elapsed < warmup_threshold → NotWarmedUp; warmup_threshold ≤ elapsed <
calibration_threshold → Warmed; elapsed ≥ calibration_threshold → FullyCalibrated`. -/
def classify_spec (e : ℚ) : WarmupClass :=
  if e < WARMUP_TIME then .NotWarmedUp
  else if e < CALIBRATION_TIME then .Warmed
  else .FullyCalibrated

lemma warmup_lt_calibration : WARMUP_TIME < CALIBRATION_TIME := by
  unfold WARMUP_TIME CALIBRATION_TIME; norm_num

/-- C1 counterexample: at elapsed time exactly equal to the warm-up threshold the
code classifies NotWarmedUp while the claim demands Warmed, and at elapsed time
exactly equal to the calibration threshold the code classifies Warmed while the
claim demands FullyCalibrated. -/
theorem c1_boundary_counterexample :
    classify 0 WARMUP_TIME = WarmupClass.NotWarmedUp ∧
    classify_spec (WARMUP_TIME - 0) = WarmupClass.Warmed ∧
    classify 0 CALIBRATION_TIME = WarmupClass.Warmed ∧
    classify_spec (CALIBRATION_TIME - 0) = WarmupClass.FullyCalibrated := by
  refine ⟨?_, ?_, ?_, ?_⟩ <;>
    simp [classify, classify_spec, check_warmup_status, WARMUP_TIME, CALIBRATION_TIME] <;>
    norm_num

/-- C1 amended: the code's boundaries are exclusive on the low side: NotWarmedUp
exactly when elapsed ≤ warm-up threshold, Warmed exactly when warm-up threshold <
elapsed ≤ calibration threshold, FullyCalibrated exactly when elapsed > calibration
threshold; in particular elapsed exactly at a threshold still falls in the lower class. -/
theorem c1_warmup_classification (s now : ℚ) :
    (classify s now = WarmupClass.NotWarmedUp ↔ now - s ≤ WARMUP_TIME) ∧
    (classify s now = WarmupClass.Warmed ↔
      WARMUP_TIME < now - s ∧ now - s ≤ CALIBRATION_TIME) ∧
    (classify s now = WarmupClass.FullyCalibrated ↔ CALIBRATION_TIME < now - s) := by
  have hwc := warmup_lt_calibration
  unfold classify check_warmup_status
  simp only [decide_eq_true_eq]
  split_ifs with h1 h2
  · exact ⟨iff_of_false (by simp) (by push_neg; linarith),
      iff_of_false (by simp) (fun h => absurd h1 (not_lt.mpr h.2)),
      iff_of_true rfl h1⟩
  · exact ⟨iff_of_false (by simp) (fun h => absurd h2 (not_lt.mpr h)),
      iff_of_true rfl ⟨h2, not_lt.mp h1⟩,
      iff_of_false (by simp) h1⟩
  · exact ⟨iff_of_true rfl (not_lt.mp h2),
      iff_of_false (by simp) (fun h => absurd h.1 h2),
      iff_of_false (by simp) h1⟩

/- ## Baseline store -/

/-- Abstract contents of `sgp30_baseline.json`: text that fails JSON parsing,
a JSON object missing one of the two expected keys, or a well-formed record. -/
inductive FileContent
  | notJson
  | jsonMissingField
  | record (eCO2 TVOC : Int)
deriving DecidableEq

/-- The filesystem visible to the scripts: the optional baseline file and
whether the medium is writable (a CIRCUITPY drive is often read-only). -/
structure FS where
  file : Option FileContent
  writable : Bool
deriving DecidableEq

/-- The Python exceptions the baseline code can raise. -/
inductive PyError
  | osError (errno : Nat)
  | keyError
  | valueError
deriving DecidableEq

/-- The slice of the SGP30 sensor object the baseline code touches. -/
structure Sensor where
  iaq_baseline : Option (Int × Int)
  baseline_eCO2 : Int
  baseline_TVOC : Int
deriving DecidableEq

def fresh_log : String := "No stored baseline found - starting fresh calibration"

def readonly_log : String := "Could not save baseline - filesystem is read-only"

/-- The try-block body of `load_baseline`: `open` raises OSError when the file is
absent, `json.load` raises ValueError on unparsable text, and the `baseline[...]`
subscripts raise KeyError when a key is missing; otherwise `set_iaq_baseline` is
called and True is returned after two log lines (hex formatting abstracted). -/
def load_baseline_body (fs : FS) (sensor : Sensor) :
    Except PyError (Bool × Sensor × List String) :=
  match fs.file with
  | none => .error (.osError 2)
  | some .notJson => .error .valueError
  | some .jsonMissingField => .error .keyError
  | some (.record e t) =>
      .ok (true, { sensor with iaq_baseline := some (e, t) },
        ["Loaded stored baseline values:",
         "eCO2: " ++ toString e ++ ", TVOC: " ++ toString t])

/-- `load_baseline` from the source: the try-body with the handler
`except (OSError, KeyError)`, which logs and returns False; any other
exception (such as ValueError from `json.load`) propagates. -/
def load_baseline (fs : FS) (sensor : Sensor) :
    Except PyError (Bool × Sensor × List String) :=
  match load_baseline_body fs sensor with
  | .error (.osError _) => .ok (false, sensor, [fresh_log])
  | .error .keyError => .ok (false, sensor, [fresh_log])
  | r => r

/-- Mutable store state: the filesystem plus the global `last_baseline_save`. -/
structure StoreState where
  fs : FS
  last_baseline_save : ℚ
deriving DecidableEq

/-- `open(..., "w")` + `json.dump`: on a read-only filesystem the write raises
OSError with errno 30; otherwise the file now holds the dumped record. -/
def fs_write (fs : FS) (c : FileContent) : Except Nat FS :=
  if fs.writable then .ok { fs with file := some c } else .error 30

/-- `save_baseline` from the source: guarded by the (redundantly doubled) check
`(current_time - start_time) > CALIBRATION_TIME`; inside, the file write is
attempted and `last_baseline_save` is set only on success; `except OSError`
distinguishes errno 30 (read-only) from other errnos, logging either way and
propagating nothing. -/
def save_baseline (sensor : Sensor) (start_time current_time : ℚ)
    (st : StoreState) : StoreState × List String :=
  if current_time - start_time > CALIBRATION_TIME then
    if current_time - start_time > CALIBRATION_TIME then
      match fs_write st.fs (.record sensor.baseline_eCO2 sensor.baseline_TVOC) with
      | .ok fs2 =>
          ({ fs := fs2, last_baseline_save := current_time }, ["Saved new baseline values"])
      | .error 30 => (st, [readonly_log])
      | .error e => (st, ["Error saving baseline: [Errno " ++ toString e ++ "]"])
    else (st, [])
  else (st, [])

/-- `update_baseline` from the source: invokes `save_baseline` exactly when
`current_time - last_baseline_save > BASELINE_SAVE_INTERVAL`. The Bool in the
result records whether `save_baseline` was invoked. -/
def update_baseline (sensor : Sensor) (start_time current_time : ℚ)
    (st : StoreState) : StoreState × Bool × List String :=
  if current_time - st.last_baseline_save > BASELINE_SAVE_INTERVAL then
    let r := save_baseline sensor start_time current_time st
    (r.1, true, r.2)
  else (st, false, [])

/-- A concrete sensor state for witnesses and counterexamples. -/
def sensor0 : Sensor :=
  { iaq_baseline := none, baseline_eCO2 := 0x8973, baseline_TVOC := 0x8AAE }

/-- A concrete store state: no baseline file yet, writable medium, no save yet. -/
def st0 : StoreState :=
  { fs := { file := none, writable := true }, last_baseline_save := 0 }

/-- C3 counterexample: on a present but unparsable baseline file, `json.load`
raises ValueError, which the handler `except (OSError, KeyError)` does not catch,
so the exception escapes `load_baseline` instead of returning "no baseline". -/
theorem c3_malformed_json_counterexample :
    load_baseline { file := some FileContent.notJson, writable := true } sensor0 =
      Except.error PyError.valueError := by
  rfl

/-- C3 amended: when the baseline file is absent, or is JSON missing an expected
field, `load_baseline` returns False (no baseline) with the recoverable log line
and no exception escapes; but a file whose contents fail JSON parsing raises an
uncaught ValueError. -/
theorem c3_load_absent_or_missing_fields (fs : FS) (sensor : Sensor)
    (h : fs.file = none ∨ fs.file = some FileContent.jsonMissingField) :
    load_baseline fs sensor = Except.ok (false, sensor, [fresh_log]) := by
  rcases h with h | h <;> simp [load_baseline, load_baseline_body, h]

/-- Witness for `c3_load_absent_or_missing_fields` at an absent file. -/
theorem c3_load_absent_witness :
    load_baseline { file := none, writable := true } sensor0 =
      Except.ok (false, sensor0, [fresh_log]) :=
  c3_load_absent_or_missing_fields { file := none, writable := true } sensor0 (Or.inl rfl)

/-- C4 confirmed: when elapsed time since start does not exceed the calibration
threshold, `save_baseline` is a no-op: state unchanged, nothing logged, the file
untouched, and a subsequent `load_baseline` sees exactly the old filesystem. -/
theorem c4_save_noop_before_calibration (sensor : Sensor) (s t : ℚ) (st : StoreState)
    (h : t - s ≤ CALIBRATION_TIME) :
    save_baseline sensor s t st = (st, []) ∧
    (save_baseline sensor s t st).1.fs = st.fs ∧
    ∀ sensor2, load_baseline (save_baseline sensor s t st).1.fs sensor2 =
      load_baseline st.fs sensor2 := by
  have hng : ¬ (t - s > CALIBRATION_TIME) := not_lt.mpr h
  refine ⟨?_, ?_, fun sensor2 => ?_⟩ <;> simp [save_baseline, hng]

/-- Witness for `c4_save_noop_before_calibration` at elapsed time 100 s. -/
theorem c4_save_noop_witness :
    (100 : ℚ) - 0 ≤ CALIBRATION_TIME ∧
    (save_baseline sensor0 0 100 st0 = (st0, []) ∧
     (save_baseline sensor0 0 100 st0).1.fs = st0.fs ∧
     ∀ sensor2, load_baseline (save_baseline sensor0 0 100 st0).1.fs sensor2 =
       load_baseline st0.fs sensor2) :=
  ⟨by norm_num [CALIBRATION_TIME],
   c4_save_noop_before_calibration sensor0 0 100 st0 (by norm_num [CALIBRATION_TIME])⟩

/-- C5 counterexample: with the store never having saved (`last_baseline_save = 0`)
and calibration not yet complete, `update_baseline` invokes `save_baseline` at
t = 3601 s and again at t = 3605 s, only 4 s apart — far less than the save
interval — because `last_baseline_save` advances only on a successful file write. -/
theorem c5_rapid_invocation_counterexample :
    (update_baseline sensor0 0 3601 st0).2.1 = true ∧
    (update_baseline sensor0 0 3605 (update_baseline sensor0 0 3601 st0).1).2.1 = true ∧
    (3605 : ℚ) - 3601 < BASELINE_SAVE_INTERVAL := by
  refine ⟨?_, ?_, ?_⟩ <;>
    norm_num [update_baseline, save_baseline, BASELINE_SAVE_INTERVAL, CALIBRATION_TIME, st0]

/-- C5 amended: the once-per-interval rate limit holds for successful saves: after
an invocation whose save recorded its time in `last_baseline_save`, no further
invocation of `save_baseline` happens within the save interval; invocations whose
save wrote nothing (uncalibrated or failed write) are not so limited. -/
theorem c5_save_spacing_after_success (sensor : Sensor) (s t t2 : ℚ) (st : StoreState)
    (hsave : (update_baseline sensor s t st).1.last_baseline_save = t)
    (hclose : t2 - t ≤ BASELINE_SAVE_INTERVAL) :
    (update_baseline sensor s t2 (update_baseline sensor s t st).1).2.1 = false := by
  set st2 := (update_baseline sensor s t st).1
  have hng : ¬ (t2 - st2.last_baseline_save > BASELINE_SAVE_INTERVAL) := by
    rw [hsave]; exact not_lt.mpr hclose
  simp [update_baseline, hng]

/-- Witness for `c5_save_spacing_after_success`: a successful save at t = 43300 s
(past calibration, writable medium) suppresses the invocation at t = 43400 s. -/
theorem c5_save_spacing_witness :
    (update_baseline sensor0 0 43300 st0).1.last_baseline_save = 43300 ∧
    (43400 : ℚ) - 43300 ≤ BASELINE_SAVE_INTERVAL ∧
    (update_baseline sensor0 0 43400 (update_baseline sensor0 0 43300 st0).1).2.1 = false :=
  ⟨by norm_num [update_baseline, save_baseline, fs_write, BASELINE_SAVE_INTERVAL,
      CALIBRATION_TIME, st0],
   by norm_num [BASELINE_SAVE_INTERVAL],
   c5_save_spacing_after_success sensor0 0 43300 43400 st0
     (by norm_num [update_baseline, save_baseline, fs_write, BASELINE_SAVE_INTERVAL,
        CALIBRATION_TIME, st0])
     (by norm_num [BASELINE_SAVE_INTERVAL])⟩

/- ## Display renderer -/

/-- A `label.Label` object: its mutable text and color attributes. -/
structure Label where
  text : String
  color : Nat
deriving DecidableEq

/-- The named label globals of the two scripts (union of both variants). -/
inductive LabelName
  | co2_label
  | co2_value
  | temp_label
  | humid_label
  | voc_status
  | voc_label
  | icon_label
deriving DecidableEq

/-- One mutation of the screen state, in the order the source performs them:
`color_palette[0] = c`, `label.text = s`, `label.color = c`, `led.value = b`. -/
inductive DisplayWrite
  | setPalette0 (c : Nat)
  | setText (l : LabelName) (s : String)
  | setColor (l : LabelName) (c : Nat)
  | setLed (b : Bool)
deriving DecidableEq

/-- The physical screen state: background palette entry 0, the label objects,
and the LED (SGP30 variant). -/
structure Display where
  palette0 : Nat
  co2_label : Label
  co2_value : Label
  temp_label : Label
  humid_label : Label
  voc_status : Label
  voc_label : Label
  icon_label : Label
  led : Bool
deriving DecidableEq

def Display.getLabel (d : Display) : LabelName → Label
  | .co2_label => d.co2_label
  | .co2_value => d.co2_value
  | .temp_label => d.temp_label
  | .humid_label => d.humid_label
  | .voc_status => d.voc_status
  | .voc_label => d.voc_label
  | .icon_label => d.icon_label

def Display.setLabel (d : Display) : LabelName → Label → Display
  | .co2_label, v => { d with co2_label := v }
  | .co2_value, v => { d with co2_value := v }
  | .temp_label, v => { d with temp_label := v }
  | .humid_label, v => { d with humid_label := v }
  | .voc_status, v => { d with voc_status := v }
  | .voc_label, v => { d with voc_label := v }
  | .icon_label, v => { d with icon_label := v }

def Display.applyWrite (d : Display) : DisplayWrite → Display
  | .setPalette0 c => { d with palette0 := c }
  | .setText l s => d.setLabel l { d.getLabel l with text := s }
  | .setColor l c => d.setLabel l { d.getLabel l with color := c }
  | .setLed b => { d with led := b }

def Display.applyWrites (d : Display) (ws : List DisplayWrite) : Display :=
  ws.foldl Display.applyWrite d

/-- FontAwesome "ok" glyph written in the sources (U+F118). -/
def iconOk : String := ""

/-- FontAwesome "alert" glyph written in the sources (U+F119). -/
def iconAlert : String := ""

/-- `is_high = co2 >= CO2_THRESHOLD` (both variants). -/
def reading_is_high (co2 : Int) : Bool := decide (co2 ≥ CO2_THRESHOLD)

/-- `voc_is_high = voc >= VOC_THRESHOLD` (SGP30 `update_labels`). -/
def reading_voc_is_high (voc : Int) : Bool := decide (voc ≥ VOC_THRESHOLD)

/-- The previous-frame cache dictionary of the SGP30 variant. -/
structure PrevValues where
  co2 : Option Int
  voc : Option Int
  is_high : Option Bool
deriving DecidableEq

/-- The previous-frame cache dictionary of the SCD40 variant. -/
structure PrevValuesSCD where
  co2 : Option Int
  temp : Option Int
  humidity : Option Int
  is_high : Option Bool
deriving DecidableEq

/-- The writes performed by the SGP30 `update_labels(co2, voc, is_high)`, in
source order: the is_high-change branch (palette, four label colors, icon text
and color), the co2-change branch, the voc-change branch (which also recolors
`voc_status`), then the unconditional LED write. -/
def update_labels_writes (prev : PrevValues) (co2 voc : Int) (is_high : Bool) :
    List DisplayWrite :=
  let voc_is_high := reading_voc_is_high voc
  (if prev.is_high ≠ some is_high then
    let new_color := if is_high then COLOR_BLACK else COLOR_WHITE
    [DisplayWrite.setPalette0 (if is_high then COLOR_WHITE else COLOR_BLACK),
     DisplayWrite.setColor .co2_label new_color,
     DisplayWrite.setColor .co2_value new_color,
     DisplayWrite.setColor .voc_status new_color,
     DisplayWrite.setColor .voc_label new_color,
     DisplayWrite.setText .icon_label (if !is_high then iconOk else iconAlert),
     DisplayWrite.setColor .icon_label (if is_high then COLOR_RED else COLOR_GREEN)]
   else []) ++
  (if prev.co2 ≠ some co2 then
    [DisplayWrite.setText .co2_label ("CO2: " ++ if is_high then "HIGH" else "good"),
     DisplayWrite.setText .co2_value (toString co2)]
   else []) ++
  (if prev.voc ≠ some voc then
    [DisplayWrite.setText .voc_status "VOC:",
     DisplayWrite.setColor .voc_status (if !voc_is_high then COLOR_GREEN else COLOR_RED),
     DisplayWrite.setText .voc_label (toString voc)]
   else []) ++
  [DisplayWrite.setLed (if !is_high && !voc_is_high then false else true)]

/-- SGP30 `update_labels`: performs its writes on the display and then stores
the new values into the previous-frame cache. -/
def update_labels (prev : PrevValues) (d : Display) (co2 voc : Int) (is_high : Bool) :
    PrevValues × Display × List DisplayWrite :=
  let ws := update_labels_writes prev co2 voc is_high
  ({ co2 := some co2, voc := some voc, is_high := some is_high }, d.applyWrites ws, ws)

/-- The writes performed by the SCD40 `update_labels(co2, temp, humidity,
is_high)`, in source order. -/
def update_labels_scd_writes (prev : PrevValuesSCD) (co2 temp humidity : Int)
    (is_high : Bool) : List DisplayWrite :=
  (if prev.is_high ≠ some is_high then
    let new_color := if is_high then COLOR_BLACK else COLOR_WHITE
    [DisplayWrite.setPalette0 (if is_high then COLOR_WHITE else COLOR_BLACK),
     DisplayWrite.setColor .co2_label new_color,
     DisplayWrite.setColor .co2_value new_color,
     DisplayWrite.setColor .temp_label new_color,
     DisplayWrite.setColor .humid_label new_color,
     DisplayWrite.setText .icon_label (if !is_high then iconOk else iconAlert),
     DisplayWrite.setColor .icon_label (if !is_high then COLOR_GREEN else COLOR_RED)]
   else []) ++
  (if prev.co2 ≠ some co2 then
    [DisplayWrite.setText .co2_label ("CO2: " ++ if is_high then "HIGH" else "good"),
     DisplayWrite.setText .co2_value (toString co2)]
   else []) ++
  (if prev.temp ≠ some temp then
    [DisplayWrite.setText .temp_label (toString temp ++ "°F")]
   else []) ++
  (if prev.humidity ≠ some humidity then
    [DisplayWrite.setText .humid_label (toString humidity ++ "%")]
   else [])

/-- SCD40 `update_labels`: performs its writes and updates the cache. -/
def update_labels_scd (prev : PrevValuesSCD) (d : Display) (co2 temp humidity : Int)
    (is_high : Bool) : PrevValuesSCD × Display × List DisplayWrite :=
  let ws := update_labels_scd_writes prev co2 temp humidity is_high
  ({ co2 := some co2, temp := some temp, humidity := some humidity,
     is_high := some is_high }, d.applyWrites ws, ws)

/-- A write to a rendered field of the claim: label text, label color, or the
background palette entry (the LED is not a rendered field). -/
def isRenderWrite : DisplayWrite → Bool
  | .setLed _ => false
  | _ => true

/-- A write that modifies a color: the background palette entry or a label color. -/
def isColorWrite : DisplayWrite → Bool
  | .setPalette0 _ => true
  | .setColor _ _ => true
  | _ => false

/-- Whether a write stores into a field the value that field currently holds. -/
def writeIsRedundant (d : Display) : DisplayWrite → Bool
  | .setPalette0 c => d.palette0 == c
  | .setText l s => (d.getLabel l).text == s
  | .setColor l c => (d.getLabel l).color == c
  | .setLed b => d.led == b

/-- Whether, replaying a write list from display state `d`, some write to a
rendered field assigns the value that field already holds at that moment. -/
def hasRedundantRenderWrite : Display → List DisplayWrite → Bool
  | _, [] => false
  | d, w :: ws =>
      (isRenderWrite w && writeIsRedundant d w) || hasRedundantRenderWrite (d.applyWrite w) ws

/-- The display as the SGP30 script's initialization leaves it just after
`show_loading_screen()`: black background palette, white label colors (icon
green), loading texts, LED off. -/
def initialDisplay : Display :=
  { palette0 := 0x000000
    co2_label := { text := "Loading...", color := 0xFFFFFF }
    co2_value := { text := "", color := 0xFFFFFF }
    temp_label := { text := "", color := 0xFFFFFF }
    humid_label := { text := "", color := 0xFFFFFF }
    voc_status := { text := "", color := 0xFFFFFF }
    voc_label := { text := "", color := 0xFFFFFF }
    icon_label := { text := "", color := 0x00FF00 }
    led := false }

/-- The initial (all-None) SGP30 previous-frame cache. -/
def prevInit : PrevValues := { co2 := none, voc := none, is_high := none }

/-- An SGP30 cache populated by a first reading co2 = 800, voc = 100 (not high). -/
def prev1 : PrevValues := { co2 := some 800, voc := some 100, is_high := some false }

/-- An SCD40 cache populated by a reading in the high state. -/
def prevT : PrevValuesSCD :=
  { co2 := some 1200, temp := some 72, humidity := some 40, is_high := some true }

/-- An SGP30 cache populated by a first reading in the high state. -/
def prev2 : PrevValues := { co2 := some 1200, voc := some 100, is_high := some true }

/-- C2 counterexample: after a first render of (co2 = 800, voc = 100, not high),
rendering the new reading (co2 = 800, voc = 120, not high) writes `voc_status.text
= "VOC:"` and `voc_status.color = green`, both values the field already holds on
screen — the renderer does rewrite rendered fields with unchanged values. -/
theorem c2_redundant_write_counterexample :
    (update_labels prevInit initialDisplay 800 100 false).1.voc ≠ some 120 ∧
    hasRedundantRenderWrite (update_labels prevInit initialDisplay 800 100 false).2.1
      (update_labels_writes (update_labels prevInit initialDisplay 800 100 false).1
        800 120 false) = true := by
  decide

/-- C2 amended: redraw suppression works at the granularity of the cached reading
values: the cache after the call is exactly the new reading, and a reading equal
to the cache triggers no write to any rendered field at all; but when one value
changes, sibling attributes of its field group may be rewritten with values they
already hold. -/
theorem c2_cache_update_and_suppression (prev : PrevValues) (d : Display)
    (co2 voc : Int) (is_high : Bool) :
    (update_labels prev d co2 voc is_high).1 =
      { co2 := some co2, voc := some voc, is_high := some is_high } ∧
    (prev.co2 = some co2 → prev.voc = some voc → prev.is_high = some is_high →
      ((update_labels prev d co2 voc is_high).2.2.filter isRenderWrite = [])) := by
  refine ⟨rfl, fun h1 h2 h3 => ?_⟩
  simp [update_labels, update_labels_writes, h1, h2, h3, isRenderWrite]

/-- Witness for `c2_cache_update_and_suppression` on a repeated reading. -/
theorem c2_cache_update_witness :
    (update_labels prev1 initialDisplay 800 100 false).1 =
      { co2 := some 800, voc := some 100, is_high := some false } ∧
    ((update_labels prev1 initialDisplay 800 100 false).2.2.filter isRenderWrite = []) :=
  ⟨(c2_cache_update_and_suppression prev1 initialDisplay 800 100 false).1,
   (c2_cache_update_and_suppression prev1 initialDisplay 800 100 false).2
     rfl rfl rfl⟩

/-- C6 counterexample: in the SGP30 renderer a voc change with `is_high`
unchanged still writes a color: `voc_status.color` is reassigned inside the
voc-changed branch, so the is_high branch is not the only color-touching
operation. -/
theorem c6_voc_branch_color_counterexample :
    prev1.is_high = some false ∧
    DisplayWrite.setColor LabelName.voc_status COLOR_GREEN ∈
      update_labels_writes prev1 800 120 false := by
  decide

/-- C6 amended: colors are untouched only when both the is_high flag and the voc
value are unchanged (SGP30 variant), the voc-changed branch being a second
color-touching operation; in the SCD40 variant the is_high branch alone gates
every color write, value changes updating only text. -/
theorem c6_color_writes_gated (prev : PrevValues) (co2 voc : Int) (is_high : Bool)
    (prevS : PrevValuesSCD) (co2s temps hums : Int) (ihs : Bool)
    (h1 : prev.is_high = some is_high) (h2 : prev.voc = some voc)
    (h3 : prevS.is_high = some ihs) :
    (update_labels_writes prev co2 voc is_high).filter isColorWrite = [] ∧
    (update_labels_scd_writes prevS co2s temps hums ihs).filter isColorWrite = [] := by
  refine ⟨?_, ?_⟩ <;>
    simp [update_labels_writes, update_labels_scd_writes, h1, h2, h3, isColorWrite] <;>
    split_ifs <;>
    simp [isColorWrite] <;>
    (intro a _ ha; rcases ha with rfl | rfl <;> rfl)

/-- Witness for `c6_color_writes_gated` at concrete unchanged flags. -/
theorem c6_color_writes_gated_witness :
    (update_labels_writes prev1 900 100 false).filter isColorWrite = [] ∧
    (update_labels_scd_writes prevT 1100 75 45 true).filter isColorWrite = [] :=
  c6_color_writes_gated prev1 900 100 false prevT 1100 75 45 true rfl rfl rfl

/-- The is_high-branch write block of the SGP30 renderer, with the palette and
colors the code actually uses: alert (high) = white background, black text, red
icon with alert glyph; normal (not high) = black background, white text, green
icon with ok glyph. -/
def flipBlock (is_high : Bool) : List DisplayWrite :=
  [DisplayWrite.setPalette0 (if is_high then COLOR_WHITE else COLOR_BLACK),
   DisplayWrite.setColor .co2_label (if is_high then COLOR_BLACK else COLOR_WHITE),
   DisplayWrite.setColor .co2_value (if is_high then COLOR_BLACK else COLOR_WHITE),
   DisplayWrite.setColor .voc_status (if is_high then COLOR_BLACK else COLOR_WHITE),
   DisplayWrite.setColor .voc_label (if is_high then COLOR_BLACK else COLOR_WHITE),
   DisplayWrite.setText .icon_label (if is_high then iconAlert else iconOk),
   DisplayWrite.setColor .icon_label (if is_high then COLOR_RED else COLOR_GREEN)]

/-- The is_high-branch write block of the SCD40 renderer (same palette scheme). -/
def flipBlockSCD (is_high : Bool) : List DisplayWrite :=
  [DisplayWrite.setPalette0 (if is_high then COLOR_WHITE else COLOR_BLACK),
   DisplayWrite.setColor .co2_label (if is_high then COLOR_BLACK else COLOR_WHITE),
   DisplayWrite.setColor .co2_value (if is_high then COLOR_BLACK else COLOR_WHITE),
   DisplayWrite.setColor .temp_label (if is_high then COLOR_BLACK else COLOR_WHITE),
   DisplayWrite.setColor .humid_label (if is_high then COLOR_BLACK else COLOR_WHITE),
   DisplayWrite.setText .icon_label (if is_high then iconAlert else iconOk),
   DisplayWrite.setColor .icon_label (if is_high then COLOR_RED else COLOR_GREEN)]

/-- C7 counterexample: flipping to the not-high state writes a black background
palette entry, not the white one the claim's "normal palette" prescribes. -/
theorem c7_palette_counterexample :
    DisplayWrite.setPalette0 COLOR_BLACK ∈ update_labels_scd_writes prevT 800 70 40 false ∧
    DisplayWrite.setPalette0 COLOR_BLACK ∈ update_labels_writes prev2 800 100 false ∧
    COLOR_BLACK ≠ COLOR_WHITE := by
  refine ⟨?_, ?_, ?_⟩
  · decide
  · decide
  · decide

/-- C7 amended: on an is_high flip both renderers write, in order, the palette
entry (white when high, black when not high), all four text label colors (black
when high, white when not high), the icon glyph (alert glyph when high, ok glyph
when not), and the icon color (red when high, green when not). -/
theorem c7_alert_palette_flip (prev : PrevValues) (co2 voc : Int) (is_high : Bool)
    (prevS : PrevValuesSCD) (co2s temps hums : Int) (ihs : Bool)
    (h : prev.is_high ≠ some is_high) (h' : prevS.is_high ≠ some ihs) :
    (∃ rest, update_labels_writes prev co2 voc is_high = flipBlock is_high ++ rest) ∧
    (∃ rest, update_labels_scd_writes prevS co2s temps hums ihs =
      flipBlockSCD ihs ++ rest) := by
  constructor <;>
    [cases is_high; cases ihs] <;>
    simp [update_labels_writes, update_labels_scd_writes, h, h', flipBlock, flipBlockSCD,
      iconOk, iconAlert]

/-- Witness for `c7_alert_palette_flip` at a concrete flip in each variant. -/
theorem c7_alert_palette_flip_witness :
    (∃ rest, update_labels_writes prev1 1200 100 true = flipBlock true ++ rest) ∧
    (∃ rest, update_labels_scd_writes prevT 800 70 40 false = flipBlockSCD false ++ rest) :=
  c7_alert_palette_flip prev1 1200 100 true prevT 800 70 40 false
    (by decide) (by decide)

/-- C10 confirmed: a reading is classified high exactly when co2 ≥ 1000, a voc
value exactly when voc ≥ 250; both thresholds are inclusive, so values exactly at
the threshold classify as high. -/
theorem c10_threshold_boundaries (co2 voc : Int) :
    (reading_is_high co2 = true ↔ CO2_THRESHOLD ≤ co2) ∧
    (reading_voc_is_high voc = true ↔ VOC_THRESHOLD ≤ voc) ∧
    reading_is_high CO2_THRESHOLD = true ∧
    reading_voc_is_high VOC_THRESHOLD = true := by
  refine ⟨?_, ?_, ?_, ?_⟩ <;>
    simp [reading_is_high, reading_voc_is_high]

/- ## Loop controller -/

def SPINNER_CHARS : List String := ["|", "/", "-", "\\"]

/-- `update_spinner_animation(frame)` of the SGP30 script. -/
def update_spinner_writes (frame : Nat) : List DisplayWrite :=
  [DisplayWrite.setText .co2_label ("Loading " ++ SPINNER_CHARS.getD frame ""),
   DisplayWrite.setText .voc_label (SPINNER_CHARS.getD frame "")]

/-- `update_spinner_animation(frame)` of the SCD40 script. -/
def update_spinner_writes_scd (frame : Nat) : List DisplayWrite :=
  [DisplayWrite.setText .co2_label ("Loading " ++ SPINNER_CHARS.getD frame ""),
   DisplayWrite.setText .temp_label (SPINNER_CHARS.getD frame ""),
   DisplayWrite.setText .humid_label (SPINNER_CHARS.getD frame "")]

/-- One SGP30 tick's external input: the monotonic time at the tick and the
outcome of reading `sensor.eCO2` / `sensor.TVOC` (a bus failure raises). -/
structure TickInput where
  now : ℚ
  sensorRead : Except PyError (Int × Int)

/-- The mutable program state the SGP30 loop touches. -/
structure SysState where
  prev : PrevValues
  display : Display
  store : StoreState
  animation_frame : Nat
  last_animation_time : ℚ

/-- `update()` of the SGP30 script: during warm-up, advance the spinner on its
own cadence; once warmed up, read the sensor (a read failure is caught by the
`except` clause and leaves all state unchanged), classify the reading, render
it, and run the baseline saver. -/
def update (sensor : Sensor) (start_time : ℚ) (inp : TickInput) (s : SysState) :
    SysState :=
  let status := check_warmup_status start_time inp.now
  if status.warmed_up = false then
    if inp.now - s.last_animation_time ≥ LOADING_INTERVAL then
      { s with
        display := s.display.applyWrites
          (update_spinner_writes (s.animation_frame % SPINNER_CHARS.length))
        animation_frame := s.animation_frame + 1
        last_animation_time := inp.now }
    else s
  else
    match inp.sensorRead with
    | .error _ => s
    | .ok (co2, voc) =>
        let is_high := reading_is_high co2
        let r := update_labels s.prev s.display co2 voc is_high
        let rb := update_baseline sensor start_time inp.now s.store
        { s with prev := r.1, display := r.2.1, store := rb.1 }

/-- One iteration of the SGP30 main loop: run `update()`, then sleep the fast
loading interval while `prev_values["co2"]` is still None, else the slow one. -/
def loopTick (sensor : Sensor) (start_time : ℚ) (inp : TickInput) (s : SysState) :
    SysState × ℚ :=
  let s2 := update sensor start_time inp s
  (s2, if s2.prev.co2 = none then LOADING_PHASE_SLEEP else UPDATE_INTERVAL)

/-- Folding the SGP30 loop over a list of tick inputs, collecting the sleeps. -/
def loopRun (sensor : Sensor) (start_time : ℚ) :
    List TickInput → SysState → SysState × List ℚ
  | [], s => (s, [])
  | inp :: rest, s =>
      let r := loopTick sensor start_time inp s
      let r2 := loopRun sensor start_time rest r.1
      (r2.1, r.2 :: r2.2)

/-- One SCD40 tick's external input: monotonic time, the `data_ready` flag, and
the outcome of reading CO2 / temperature (already °F, int) / humidity. -/
structure TickInputSCD where
  now : ℚ
  data_ready : Bool
  sensorRead : Except PyError (Int × Int × Int)

/-- The mutable program state the SCD40 loop touches. -/
structure SysStateSCD where
  prev : PrevValuesSCD
  display : Display
  animation_frame : Nat
  last_animation_time : ℚ

/-- `update()` of the SCD40 script: if data is ready, read and render (failures
caught, state unchanged); otherwise animate the spinner, but only while no data
has ever been received (`prev_values["co2"] is None`). -/
def update_scd (inp : TickInputSCD) (s : SysStateSCD) : SysStateSCD :=
  if inp.data_ready then
    match inp.sensorRead with
    | .error _ => s
    | .ok (co2, temp, humidity) =>
        let is_high := reading_is_high co2
        let r := update_labels_scd s.prev s.display co2 temp humidity is_high
        { s with prev := r.1, display := r.2.1 }
  else
    if s.prev.co2 = none then
      if inp.now - s.last_animation_time ≥ LOADING_INTERVAL then
        { s with
          display := s.display.applyWrites
            (update_spinner_writes_scd (s.animation_frame % SPINNER_CHARS.length))
          animation_frame := s.animation_frame + 1
          last_animation_time := inp.now }
      else s
    else s

/-- One iteration of the SCD40 main loop. -/
def loopTickSCD (inp : TickInputSCD) (s : SysStateSCD) : SysStateSCD × ℚ :=
  let s2 := update_scd inp s
  (s2, if s2.prev.co2 = none then LOADING_PHASE_SLEEP else UPDATE_INTERVAL)

/-- Folding the SCD40 loop over a list of tick inputs, collecting the sleeps. -/
def loopRunSCD : List TickInputSCD → SysStateSCD → SysStateSCD × List ℚ
  | [], s => (s, [])
  | inp :: rest, s =>
      let r := loopTickSCD inp s
      let r2 := loopRunSCD rest r.1
      (r2.1, r.2 :: r2.2)

lemma update_preserves_co2 (sensor : Sensor) (start : ℚ) (inp : TickInput)
    (s : SysState) (h : s.prev.co2.isSome) :
    (update sensor start inp s).prev.co2.isSome := by
  rcases hr : inp.sensorRead with e | ⟨co2, voc⟩ <;>
    simp only [update, hr] <;>
    split_ifs <;>
    simp [update_labels, h]

lemma update_scd_preserves_co2 (inp : TickInputSCD) (s : SysStateSCD)
    (h : s.prev.co2.isSome) :
    (update_scd inp s).prev.co2.isSome := by
  rcases hr : inp.sensorRead with e | ⟨co2, temp, humidity⟩ <;>
    simp only [update_scd, hr] <;>
    split_ifs <;>
    simp [update_labels_scd, h]

lemma loopRun_steady (sensor : Sensor) (start : ℚ) (inputs : List TickInput) :
    ∀ (s : SysState), s.prev.co2.isSome →
      (loopRun sensor start inputs s).1.prev.co2.isSome ∧
      ∀ d ∈ (loopRun sensor start inputs s).2, d = UPDATE_INTERVAL := by
  induction inputs with
  | nil => intro s h; exact ⟨h, by simp [loopRun]⟩
  | cons inp rest ih =>
      intro s h
      have h2 := update_preserves_co2 sensor start inp s h
      obtain ⟨ha, hb⟩ := ih (update sensor start inp s) h2
      have hne : (update sensor start inp s).prev.co2 ≠ none :=
        Option.isSome_iff_ne_none.mp h2
      refine ⟨by simpa [loopRun, loopTick] using ha, ?_⟩
      intro d hd
      simp only [loopRun, loopTick, List.mem_cons] at hd
      rcases hd with hd | hd
      · rw [hd, if_neg hne]
      · exact hb d hd

lemma loopRunSCD_steady (inputs : List TickInputSCD) :
    ∀ (s : SysStateSCD), s.prev.co2.isSome →
      (loopRunSCD inputs s).1.prev.co2.isSome ∧
      ∀ d ∈ (loopRunSCD inputs s).2, d = UPDATE_INTERVAL := by
  induction inputs with
  | nil => intro s h; exact ⟨h, by simp [loopRunSCD]⟩
  | cons inp rest ih =>
      intro s h
      have h2 := update_scd_preserves_co2 inp s h
      obtain ⟨ha, hb⟩ := ih (update_scd inp s) h2
      have hne : (update_scd inp s).prev.co2 ≠ none :=
        Option.isSome_iff_ne_none.mp h2
      refine ⟨by simpa [loopRunSCD, loopTickSCD] using ha, ?_⟩
      intro d hd
      simp only [loopRunSCD, loopTickSCD, List.mem_cons] at hd
      rcases hd with hd | hd
      · rw [hd, if_neg hne]
      · exact hb d hd

/-- C9 confirmed: in both variants, once the previous-frame cache holds a CO2
value, no later tick (warm-up animation, read failure, or successful read) ever
resets it to the no-data state, and every later loop iteration sleeps the slow
steady-state interval, never the fast loading one. -/
theorem c9_loading_to_steady_is_permanent (sensor : Sensor) (start : ℚ)
    (inputs : List TickInput) (s : SysState)
    (inputsS : List TickInputSCD) (sS : SysStateSCD)
    (h : s.prev.co2.isSome) (hS : sS.prev.co2.isSome) :
    ((loopRun sensor start inputs s).1.prev.co2.isSome ∧
      ∀ d ∈ (loopRun sensor start inputs s).2, d = UPDATE_INTERVAL) ∧
    ((loopRunSCD inputsS sS).1.prev.co2.isSome ∧
      ∀ d ∈ (loopRunSCD inputsS sS).2, d = UPDATE_INTERVAL) :=
  ⟨loopRun_steady sensor start inputs s h, loopRunSCD_steady inputsS sS hS⟩

/-- A concrete SGP30 system state that has seen one reading. -/
def sys0 : SysState :=
  { prev := prev1, display := initialDisplay, store := st0,
    animation_frame := 0, last_animation_time := 0 }

/-- A concrete SCD40 system state that has seen one reading. -/
def sysS0 : SysStateSCD :=
  { prev := prevT, display := initialDisplay,
    animation_frame := 0, last_animation_time := 0 }

/-- Witness for `c9_loading_to_steady_is_permanent`: two SGP30 ticks (a good
read, then a bus error) and two SCD40 ticks (data ready, then not ready). -/
theorem c9_loading_to_steady_witness :
    ((loopRun sensor0 0
        [⟨20, Except.ok (800, 100)⟩, ⟨24, Except.error (PyError.osError 5)⟩]
        sys0).1.prev.co2.isSome ∧
      ∀ d ∈ (loopRun sensor0 0
        [⟨20, Except.ok (800, 100)⟩, ⟨24, Except.error (PyError.osError 5)⟩]
        sys0).2, d = UPDATE_INTERVAL) ∧
    ((loopRunSCD [⟨20, true, Except.ok (900, 71, 41)⟩, ⟨24, false, Except.ok (900, 71, 41)⟩]
        sysS0).1.prev.co2.isSome ∧
      ∀ d ∈ (loopRunSCD
        [⟨20, true, Except.ok (900, 71, 41)⟩, ⟨24, false, Except.ok (900, 71, 41)⟩]
        sysS0).2, d = UPDATE_INTERVAL) :=
  c9_loading_to_steady_is_permanent sensor0 0
    [⟨20, Except.ok (800, 100)⟩, ⟨24, Except.error (PyError.osError 5)⟩] sys0
    [⟨20, true, Except.ok (900, 71, 41)⟩, ⟨24, false, Except.ok (900, 71, 41)⟩] sysS0
    (by decide) (by decide)

/-- C8 confirmed: when the filesystem is read-only and calibration time has
passed, the underlying write raises OSError errno 30, `save_baseline` catches it,
logs the read-only message, changes no state, and raises nothing; and the loop's
`update()` keeps polling and rendering on any subsequent tick regardless of
store state. -/
theorem c8_readonly_save_fails_silently (sensor : Sensor) (s t : ℚ) (st : StoreState)
    (h1 : st.fs.writable = false) (h2 : t - s > CALIBRATION_TIME) :
    fs_write st.fs (FileContent.record sensor.baseline_eCO2 sensor.baseline_TVOC) =
      Except.error 30 ∧
    save_baseline sensor s t st = (st, [readonly_log]) ∧
    ∀ (inp : TickInput) (sys : SysState) (co2 voc : Int),
      inp.sensorRead = Except.ok (co2, voc) →
      (check_warmup_status s inp.now).warmed_up = true →
      (update sensor s inp sys).prev.co2 = some co2 := by
  refine ⟨?_, ?_, fun inp sys co2 voc hr hw => ?_⟩
  · simp [fs_write, h1]
  · simp [save_baseline, h2, fs_write, h1]
  · simp [update, hw, hr, update_labels]

/-- A concrete read-only store state. -/
def stRO : StoreState :=
  { fs := { file := none, writable := false }, last_baseline_save := 0 }

/-- Witness for `c8_readonly_save_fails_silently`: read-only medium at t = 43300 s
after start, then a successful reading on the next tick. -/
theorem c8_readonly_save_witness :
    fs_write stRO.fs (FileContent.record sensor0.baseline_eCO2 sensor0.baseline_TVOC) =
      Except.error 30 ∧
    save_baseline sensor0 0 43300 stRO = (stRO, [readonly_log]) ∧
    (update sensor0 0 ⟨43304, Except.ok (800, 100)⟩ sys0).prev.co2 = some 800 :=
  ⟨(c8_readonly_save_fails_silently sensor0 0 43300 stRO rfl
      (by norm_num [CALIBRATION_TIME])).1,
   (c8_readonly_save_fails_silently sensor0 0 43300 stRO rfl
      (by norm_num [CALIBRATION_TIME])).2.1,
   (c8_readonly_save_fails_silently sensor0 0 43300 stRO rfl
      (by norm_num [CALIBRATION_TIME])).2.2
     ⟨43304, Except.ok (800, 100)⟩ sys0 800 100 rfl
     (by norm_num [check_warmup_status, WARMUP_TIME])⟩

end CO2Monitor
